import Mathlib

/-
  Verification development for the Painel Olympo Flask panel (src/app.py).

  Shallow embedding conventions:
  - Python strings are Lean String; a value that may be None (or NaN, for
    pd.isna) is Option String.
  - Python floats are modeled as exact rationals (the claims only involve
    values with exact decimal representations, and the classification
    thresholds are only compared against integer ratios).
  - try/except is modeled with Except; a function that cannot raise is total.
  - pandas DataFrames are modeled as a column-name list plus rows of cells,
    because the schema of a frame built from a JSON record list depends
    dynamically on the records (an empty record list yields no columns).
-/

set_option maxRecDepth 8000

/-! ## Character / string helpers shared by parse_number and normalize_status -/

/-- Whitespace characters stripped by the Python str.strip() used in app.py
(the common ASCII whitespace plus the no-break space). -/
def isPySpace (c : Char) : Bool :=
  c == ' ' || c == '\t' || c == '\n' || c == '\r' || c == '\x0B' || c == '\x0C' || c == ' '

/-- Python str.strip(): remove leading and trailing whitespace. -/
def pyStrip (s : String) : String :=
  String.mk (((s.data.dropWhile isPySpace).reverse.dropWhile isPySpace).reverse)

/-- Python str.lower() restricted to the alphabet the program uses:
ASCII letters and the Latin-1 accented capitals (e.g. E with acute, C with
cedilla).  All other characters (digits, emoji, whitespace) are unchanged,
as in Python. -/
def pyLowerChar (c : Char) : Char :=
  if 'A' ≤ c ∧ c ≤ 'Z' then Char.ofNat (c.toNat + 32)
  else if 0xC0 ≤ c.toNat ∧ c.toNat ≤ 0xDE ∧ c.toNat ≠ 0xD7 then Char.ofNat (c.toNat + 32)
  else c

def pyLower (s : String) : String :=
  String.mk (s.data.map pyLowerChar)

/-- Does the pattern occur at the head of the list? (helper for the Python
substring operator). -/
def leadsWith : List Char → List Char → Bool
  | [], _ => true
  | _ :: _, [] => false
  | a :: as, b :: bs => a == b && leadsWith as bs

/-- Does the pattern occur contiguously anywhere in the list?  This is the
Python expression pat in s on strings. -/
def occursIn : List Char → List Char → Bool
  | p, [] => leadsWith p []
  | p, b :: bs => leadsWith p (b :: bs) || occursIn p bs

/-- Python substring test: pat in s. -/
def strContains (s pat : String) : Bool :=
  occursIn pat.data s.data

/-! ## parse_number (src/app.py lines 38-56) -/

/-- Numeric value of a list of ASCII digits. -/
def digitsToNat (cs : List Char) : ℕ :=
  cs.foldl (fun a c => a * 10 + (c.toNat - 48)) 0

/-- Python float(...) on an unsigned cleaned string: digits with at most one
dot and at least one digit; None when the string does not parse. -/
def parseUnsigned (cs : List Char) : Option ℚ :=
  if cs ≠ [] ∧ cs.all Char.isDigit then some ((digitsToNat cs : ℚ))
  else
    match cs.dropWhile (fun c => c != '.') with
    | '.' :: frac =>
      if (cs.takeWhile (fun c => c != '.') ≠ [] ∨ frac ≠ []) ∧
          (cs.takeWhile (fun c => c != '.')).all Char.isDigit ∧ frac.all Char.isDigit then
        some ((digitsToNat (cs.takeWhile (fun c => c != '.')) : ℚ) +
              (digitsToNat frac : ℚ) / ((10 : ℚ) ^ frac.length))
      else none
    | _ => none

/-- Python float(s) for the cleaned strings produced by parse_number
(sign, digits, at most one decimal point); None models a ValueError. -/
def pyFloat? (s : String) : Option ℚ :=
  match s.data with
  | '-' :: rest => (parseUnsigned rest).map (fun q => -q)
  | '+' :: rest => parseUnsigned rest
  | cs => parseUnsigned cs

/-- Index of the last occurrence of a character, -1 when absent
(Python str.rfind). -/
def rfindIdx (cs : List Char) (c : Char) : Int :=
  cs.enum.foldl (fun acc p => if p.2 == c then (p.1 : Int) else acc) (-1)

/-- The cleaning pipeline of parse_number: strip, keep only digits comma dot
and minus, then the Brazilian-format disambiguation: a single comma to the
right of the last dot makes the comma the decimal point (dots removed),
otherwise commas are stripped. -/
def cleanedForm (s : String) : String :=
  let cs := (pyStrip s).data.filter (fun c => c.isDigit || c == ',' || c == '.' || c == '-')
  if cs.count ',' = 1 ∧ rfindIdx cs ',' > rfindIdx cs '.' then
    String.mk ((cs.filter (fun c => c != '.')).map (fun c => if c == ',' then '.' else c))
  else
    String.mk (cs.filter (fun c => c != ','))

/-- parse_number from src/app.py: None/NaN input gives 0.0, otherwise the
input is cleaned and parsed, any parse failure coerced to 0.0. -/
def parse_number : Option String → ℚ
  | none => 0
  | some s => (pyFloat? (cleanedForm s)).getD 0

example : parse_number (some "1.234,56") = (1234.56 : ℚ) := by with_unfolding_all rfl
example : parse_number (some "1,234.56") = (1234.56 : ℚ) := by with_unfolding_all rfl
example : parse_number (some "R$ 2.500") = (2.5 : ℚ) := by with_unfolding_all rfl
example : parse_number (some "abc") = 0 := by with_unfolding_all rfl
example : parse_number (some "-1,5") = (-1.5 : ℚ) := by with_unfolding_all rfl
example : parse_number none = 0 := by with_unfolding_all rfl

/-! ## normalize_status (src/app.py lines 382-400) -/

/-- normalize_status from src/app.py.  A non-string input is modeled as
none.  The four keyword groups are checked on the lowercased string, first
match wins; then the source rechecks the three emoji on the original
string (provably redundant); an unmatched string is returned stripped. -/
def normalize_status : Option String → String
  | none => "Aviso Prévio"
  | some s =>
    if strContains (pyLower s) "safe" || strContains (pyLower s) "🟢" then "Safe"
    else if strContains (pyLower s) "care" || strContains (pyLower s) "atenção" ||
        strContains (pyLower s) "🟡" then "Care"
    else if strContains (pyLower s) "danger" || strContains (pyLower s) "risco" ||
        strContains (pyLower s) "churn" || strContains (pyLower s) "🔴" then "Danger"
    else if strContains (pyLower s) "aviso" || strContains (pyLower s) "⚫" then "Aviso Prévio"
    else if strContains s "🟢" then "Safe"
    else if strContains s "🟡" then "Care"
    else if strContains s "🔴" then "Danger"
    else pyStrip s

/-- A keyword group matches when some keyword occurs in the lowercased
input (case-insensitive containment, as the spec words it). -/
def specMatch (s : String) (keys : List String) : Bool :=
  keys.any (fun k => strContains (pyLower s) k)

/-- The status normalizer as the spec states it: an ordered list of keyword
groups, first match wins; non-string input defaults to the notice-period
category; an unmatched string is returned verbatim, trimmed. -/
def normalize_status_spec : Option String → String
  | none => "Aviso Prévio"
  | some s =>
    if specMatch s ["safe", "🟢"] then "Safe"
    else if specMatch s ["care", "atenção", "🟡"] then "Care"
    else if specMatch s ["danger", "risco", "churn", "🔴"] then "Danger"
    else if specMatch s ["aviso", "⚫"] then "Aviso Prévio"
    else pyStrip s

example : normalize_status (some "🔴 Risco de churn") = "Danger" := by decide
example : normalize_status (some "⚫  Aviso Prévio") = "Aviso Prévio" := by decide
example : normalize_status (some "") = "" := by decide
example : normalize_status (some "🟢 Safe (resultado sólido)") = "Safe" := by decide

/-! ## DataFrame model and prepare_dataframes (src/app.py lines 62-100)

A pandas DataFrame built from a JSON record list is modeled by its column
list and its rows (cells aligned with the columns).  An empty record list
yields a frame with no columns, exactly as pd.DataFrame([]) does, which is
what makes the empty-input behaviour of prepare_dataframes observable. -/

inductive Cell where
  | s (v : String)
  | q (v : ℚ)
  | nan
deriving DecidableEq

structure DF where
  cols : List String
  rows : List (List Cell)
deriving DecidableEq

inductive PdErr where
  | keyError (col : String)
deriving DecidableEq

def DF.colIdx (df : DF) (c : String) : Option ℕ :=
  df.cols.findIdx? (fun x => x == c)

def getCell (row : List Cell) (i : ℕ) : Cell :=
  row.getD i Cell.nan

/-- String content of a key cell (the grouping/merge keys of this program
are always strings coming from the webhook JSON). -/
def cellStr : Cell → String
  | Cell.s v => v
  | _ => ""

/-- Numeric content of a cell; NaN contributes 0 to a pandas sum. -/
def cellNum : Cell → ℚ
  | Cell.q v => v
  | _ => 0

def isNanCell : Cell → Bool
  | Cell.nan => true
  | _ => false

/-- parse_number applied to a raw cell: pd.isna(NaN) is true, a string goes
through the cleaning pipeline, and a value that is already numeric
round-trips through str() unchanged. -/
def parseCell : Cell → ℚ
  | Cell.nan => 0
  | Cell.s v => parse_number (some v)
  | Cell.q v => v

/-- Lines 65-73: parse the value column in place when it exists, otherwise
create it filled with 0.0. -/
def fixCol (df : DF) (col : String) : DF :=
  match df.colIdx col with
  | some i => { df with rows := df.rows.map (fun r => r.set i (Cell.q (parseCell (getCell r i)))) }
  | none => { cols := df.cols ++ [col], rows := df.rows.map (fun r => r ++ [Cell.q 0]) }

/-- Code-point order on strings, as Python compares the grouping keys. -/
def charListLt : List Char → List Char → Bool
  | [], [] => false
  | [], _ :: _ => true
  | _ :: _, [] => false
  | a :: as, b :: bs => a < b || (a == b && charListLt as bs)

/-- Lexicographic order on (client, month) key pairs. -/
def keyLe (x y : String × String) : Bool :=
  charListLt x.1.data y.1.data || (x.1 == y.1 && (charListLt x.2.data y.2.data || x.2 == y.2))

/-- Stable insertion into a sorted list: an element goes before the first
element it compares less-or-equal to. -/
def insSorted (le : α → α → Bool) (x : α) : List α → List α
  | [] => [x]
  | y :: ys => if le x y then x :: y :: ys else y :: insSorted le x ys

/-- Stable insertion sort (rows with equal keys keep their input order). -/
def sortBy (le : α → α → Bool) (l : List α) : List α :=
  l.foldr (insSorted le) []

def flat (ls : List (List α)) : List α :=
  ls.foldr (fun a b => a ++ b) []

/-- Lines 76-82: groupby(["Cliente", "Mês"], as_index=False) with sum over
the value column and count over the record column.  pandas sorts the group
keys ascending; count counts the non-NaN entries; a missing column raises
KeyError. -/
def groupbyAgg (df : DF) : Except PdErr DF :=
  match df.colIdx "Cliente", df.colIdx "Mês", df.colIdx "Valor Variável", df.colIdx "Registro" with
  | some iC, some iM, some iV, some iR =>
    Except.ok
      { cols := ["Cliente", "Mês", "Valor Variável", "Registro"],
        rows :=
          (sortBy keyLe ((df.rows.map (fun r => (cellStr (getCell r iC), cellStr (getCell r iM)))).dedup)).map
            (fun k =>
              [Cell.s k.1, Cell.s k.2,
               Cell.q (((df.rows.filter (fun r =>
                   (cellStr (getCell r iC), cellStr (getCell r iM)) = k)).map
                     (fun r => cellNum (getCell r iV))).sum),
               Cell.q (((df.rows.filter (fun r =>
                   (cellStr (getCell r iC), cellStr (getCell r iM)) = k ∧
                     ¬ isNanCell (getCell r iR) = true)).length : ℚ))]) }
  | none, _, _, _ => Except.error (PdErr.keyError "Cliente")
  | _, none, _, _ => Except.error (PdErr.keyError "Mês")
  | _, _, none, _ => Except.error (PdErr.keyError "Valor Variável")
  | _, _, _, none => Except.error (PdErr.keyError "Registro")

/-- Line 85: left merge on "Cliente".  Every left row is kept; each match in
the right frame produces one output row (so duplicate right keys duplicate
the left row); an unmatched left row is padded with NaN. -/
def mergeLeft (l r : DF) : Except PdErr DF :=
  match l.colIdx "Cliente", r.colIdx "Cliente" with
  | some il, some ir =>
    Except.ok
      { cols := l.cols ++ r.cols.eraseIdx ir,
        rows := flat (l.rows.map (fun lr =>
          match r.rows.filter (fun rr => getCell rr ir = getCell lr il) with
          | [] => [lr ++ (r.cols.eraseIdx ir).map (fun _ => Cell.nan)]
          | ms => ms.map (fun rr => lr ++ rr.eraseIdx ir))) }
  | none, _ => Except.error (PdErr.keyError "Cliente")
  | _, none => Except.error (PdErr.keyError "Cliente")

/-- Lines 88-91: the average-ticket column, value divided by count with a
truthiness guard on the count. -/
def addTicket (df : DF) : DF :=
  match df.colIdx "Valor Variável", df.colIdx "Registro" with
  | some iV, some iR =>
    { cols := df.cols ++ ["Ticket Médio"],
      rows := df.rows.map (fun r =>
        r ++ [Cell.q (if cellNum (getCell r iR) ≠ 0 then
                        cellNum (getCell r iV) / cellNum (getCell r iR) else 0)]) }
  | _, _ => df

def ORDEM_MESES : List String :=
  ["Janeiro", "Fevereiro", "Março", "Abril", "Maio", "Junho", "Julho", "Agosto",
   "Setembro", "Outubro", "Novembro", "Dezembro"]

/-- Rank of a month cell in the fixed calendar order; a value outside the
catalog becomes NaN under pd.Categorical and sorts last. -/
def monthRank (c : Cell) : Option ℕ :=
  match c with
  | Cell.s v => ORDEM_MESES.findIdx? (fun x => x == v)
  | _ => none

def rankLe (a b : Option ℕ) : Bool :=
  match a, b with
  | some x, some y => x ≤ y
  | some _, none => true
  | none, some _ => false
  | none, none => true

/-- Lines 94-95: order rows by the calendar rank of the month column.
Modeled with a stable sort; no theorem in this file depends on the relative
order of rows with equal months, which pandas leaves unspecified. -/
def sortMes (df : DF) : DF :=
  match df.colIdx "Mês" with
  | some iM =>
    { df with rows := sortBy (fun a b => rankLe (monthRank (getCell a iM)) (monthRank (getCell b iM))) df.rows }
  | none => df

/-- Line 98: rename Registro to Qtd Eventos. -/
def renameQtd (df : DF) : DF :=
  { df with cols := df.cols.map (fun c => if c == "Registro" then "Qtd Eventos" else c) }

/-- prepare_dataframes from src/app.py lines 62-100. -/
def prepare_dataframes (df_var df_fixo : DF) : Except PdErr DF :=
  let dv := fixCol df_var "Valor Variável"
  let dfx := fixCol df_fixo "Valor Fixo"
  match groupbyAgg dv with
  | Except.error e => Except.error e
  | Except.ok g =>
    match mergeLeft g dfx with
    | Except.error e => Except.error e
    | Except.ok m => Except.ok (renameQtd (sortMes (addTicket m)))

/-- Rows of an aggregation result, empty on error (used to state membership
facts about the output without fixing the tie-order of the final sort). -/
def rowsOf (e : Except PdErr DF) : List (List Cell) :=
  match e with
  | Except.ok d => d.rows
  | Except.error _ => []

/-! ## Classification engine (src/app.py lines 670-790, route classificacao)

The answers dictionary built from the form maps every criterion name to an
optional string (request.form.get gives None for a missing field), modeled
as a function String to Option String. -/

inductive PyErr where
  | valueError
deriving DecidableEq

/-- The fixed catalog of ten criteria with their ordered option lists
(src/app.py lines 673-684). -/
def criterios : List (String × List String) :=
  [("Faturamento",
    ["0 a 69mil", "70mil a 100mil", "101mil a 200mil", "201mil a 400mil", "401mil a 1mm",
     "1mm a 2mm", "2mm a 4mm", "5mm a 16mm", "17mm a 40mm", "Acima de 40mm"]),
   ("Ticket Médio", ["Até R$2.000", "Entre R$2.000 e R$20.0000", "Acima de R$20.000"]),
   ("Step", ["V0", "V1", "V2", "V3", "V4"]),
   ("Empresa Familiar", ["Sim", "Não"]),
   ("Tempo de Mercado", ["Novo", "1-2 anos", "2-5 anos", "5+ anos"]),
   ("Ebitda",
    ["0% a 10%", "11% a 20%", "21% a 30%", "31% a 40%", "51% a 60%", "61% a 70%",
     "81% a 90%", "91% a 100%"]),
   ("Aderência do Cliente ao Modelo Variável", ["Baixo", "Médio", "Alto"]),
   ("Projeto tem CRM sendo utilizado a mais de 1 ano?", ["Não", "Sim"]),
   ("Projeto tem inteligencia de dados de funil comercial?", ["Não", "Sim"]),
   ("Health Score", ["Novo Cliente", "Aviso Prévio", "Danger", "Care", "Safe"])]

/-- The weight table (src/app.py lines 686-697); pesos.get(criterio, 1). -/
def pesos : List (String × ℕ) :=
  [("Faturamento", 2), ("Ticket Médio", 2), ("Step", 3), ("Empresa Familiar", 2),
   ("Tempo de Mercado", 1), ("Ebitda", 3), ("Aderência do Cliente ao Modelo Variável", 3),
   ("Projeto tem CRM sendo utilizado a mais de 1 ano?", 3),
   ("Projeto tem inteligencia de dados de funil comercial?", 3), ("Health Score", 2)]

def peso (c : String) : ℕ :=
  (pesos.lookup c).getD 1

/-- The forced-override rules (src/app.py lines 699-708), in dictionary
iteration order: Step first, then Ebitda. -/
def regras_forcadas : List (String × List (String × String)) :=
  [("Step", [("V0", "Não Apto"), ("V1", "Revisar")]),
   ("Ebitda", [("0% a 10%", "Não Apto"), ("11% a 20%", "Revisar")])]

/-- Outcome of one classification attempt: a verdict forced by an override
rule (the scoring step never runs), or a scored verdict carrying the raw
points, the maximum points and the 0-100 normalized score. -/
inductive Resultado where
  | forcado (resultado : String)
  | pontuado (pontos pontos_maximos : ℕ) (pontuacao : ℚ) (resultado : String)
deriving DecidableEq

/-- Python opcoes.index(resposta): position of the first occurrence, a
ValueError when the answer is missing (None) or not in the option list. -/
def pyIndex (opcoes : List String) (resposta : Option String) : Except PyErr ℕ :=
  match resposta with
  | some r => if opcoes.contains r then Except.ok (opcoes.indexOf r) else Except.error PyErr.valueError
  | none => Except.error PyErr.valueError

/-- The scoring loop (lines 758-765): accumulate index times weight and
(options - 1) times weight over the criteria, failing on the first invalid
answer exactly as list.index does. -/
def scoreFold : List (String × List String) → (String → Option String) → ℕ → ℕ → Except PyErr (ℕ × ℕ)
  | [], _, p, m => Except.ok (p, m)
  | c :: cs, respostas, p, m =>
    match pyIndex c.2 (respostas c.1) with
    | Except.ok i => scoreFold cs respostas (p + i * peso c.1) (m + (c.2.length - 1) * peso c.1)
    | Except.error e => Except.error e

/-- The verdict thresholds of lines 771-776. -/
def verdict (pontuacao : ℚ) : String :=
  if 70 ≤ pontuacao then "Apto" else if 40 ≤ pontuacao then "Revisar" else "Não Apto"

/-- The POST branch of the classificacao route: the override rules are
checked first (first match returns immediately, bypassing scoring); only
then are the answers scored, normalized to (pontos / pontos_maximos) * 100
and mapped to a verdict. -/
def classificacao (respostas : String → Option String) : Except PyErr Resultado :=
  match regras_forcadas.findSome? (fun pr => (respostas pr.1).bind (fun v => pr.2.lookup v)) with
  | some r => Except.ok (Resultado.forcado r)
  | none =>
    match scoreFold criterios respostas 0 0 with
    | Except.ok pm =>
      Except.ok (Resultado.pontuado pm.1 pm.2 (((pm.1 : ℚ) / (pm.2 : ℚ)) * 100)
        (verdict (((pm.1 : ℚ) / (pm.2 : ℚ)) * 100)))
    | Except.error e => Except.error e

/-- Index selected by an answer set on one criterion (0 for a missing
answer; only used under a validity hypothesis making it the real index). -/
def idxAns (respostas : String → Option String) (c : String × List String) : ℕ :=
  match respostas c.1 with
  | some o => c.2.indexOf o
  | none => 0

/-- Raw points as the spec words them: the sum over the criteria of the
0-based option index times the criterion weight. -/
def rawOn (respostas : String → Option String) (cs : List (String × List String)) : ℕ :=
  (cs.map (fun c => idxAns respostas c * peso c.1)).sum

/-- Maximum points: the sum over the criteria of (options - 1) times the
criterion weight. -/
def maxOn (cs : List (String × List String)) : ℕ :=
  (cs.map (fun c => (c.2.length - 1) * peso c.1)).sum

/-- The normalized 0-100 score of a fully scored answer set. -/
def pontuacaoOf (respostas : String → Option String) : ℚ :=
  ((rawOn respostas criterios : ℚ) / (maxOn criterios : ℚ)) * 100

example : maxOn criterios = 80 := by decide

deriving instance DecidableEq for Except

/-! ## Helper lemmas -/

lemma verdict_bands (q : ℚ) :
    (verdict q = "Apto" ↔ 70 ≤ q) ∧ (verdict q = "Revisar" ↔ 40 ≤ q ∧ q < 70) ∧
      (verdict q = "Não Apto" ↔ q < 40) := by
  have hAR : ("Apto" : String) ≠ "Revisar" := by decide
  have hAN : ("Apto" : String) ≠ "Não Apto" := by decide
  have hRA : ("Revisar" : String) ≠ "Apto" := by decide
  have hRN : ("Revisar" : String) ≠ "Não Apto" := by decide
  have hNA : ("Não Apto" : String) ≠ "Apto" := by decide
  have hNR : ("Não Apto" : String) ≠ "Revisar" := by decide
  unfold verdict
  by_cases h1 : (70 : ℚ) ≤ q
  · rw [if_pos h1]
    exact ⟨⟨fun _ => h1, fun _ => rfl⟩,
      ⟨fun h => absurd h hAR, fun h => absurd h1 (not_le.mpr h.2)⟩,
      ⟨fun h => absurd h hAN, fun h => absurd h1 (not_le.mpr (by linarith))⟩⟩
  · rw [if_neg h1]
    by_cases h2 : (40 : ℚ) ≤ q
    · rw [if_pos h2]
      exact ⟨⟨fun h => absurd h hRA, fun h => absurd h h1⟩,
        ⟨fun _ => ⟨h2, lt_of_not_le h1⟩, fun _ => rfl⟩,
        ⟨fun h => absurd h hRN, fun h => absurd h2 (not_le.mpr h)⟩⟩
    · rw [if_neg h2]
      exact ⟨⟨fun h => absurd h hNA, fun h => absurd h h1⟩,
        ⟨fun h => absurd h hNR, fun h => absurd h.1 h2⟩,
        ⟨fun _ => lt_of_not_le h2, fun _ => rfl⟩⟩

lemma scoreFold_ok (respostas : String → Option String) :
    ∀ (cs : List (String × List String)) (p m : ℕ),
      (∀ c ∈ cs, ((respostas c.1).any (fun o => c.2.contains o)) = true) →
      scoreFold cs respostas p m = Except.ok (p + rawOn respostas cs, m + maxOn cs) := by
  intro cs
  induction cs with
  | nil => intro p m _; simp [scoreFold, rawOn, maxOn]
  | cons c cs ih =>
    intro p m h
    have hc := h c (List.mem_cons_self c cs)
    cases hr : respostas c.1 with
    | none => rw [hr] at hc; simp [Option.any] at hc
    | some o =>
      rw [hr] at hc
      simp only [Option.any] at hc
      have hmem : o ∈ c.2 := by simpa using hc
      have hstep : scoreFold (c :: cs) respostas p m =
          scoreFold cs respostas (p + c.2.indexOf o * peso c.1)
            (m + (c.2.length - 1) * peso c.1) := by
        simp [scoreFold, pyIndex, hr, hmem]
      rw [hstep, ih _ _ (fun x hx => h x (List.mem_cons_of_mem c hx))]
      have hidx : idxAns respostas c = c.2.indexOf o := by simp [idxAns, hr]
      simp only [rawOn, maxOn, List.map_cons, List.sum_cons]
      rw [hidx]
      simp [Nat.add_assoc]

lemma scoreFold_err (respostas : String → Option String) :
    ∀ (cs : List (String × List String)) (p m : ℕ),
      (∃ c ∈ cs, ((respostas c.1).any (fun o => c.2.contains o)) = false) →
      scoreFold cs respostas p m = Except.error PyErr.valueError := by
  intro cs
  induction cs with
  | nil => intro p m h; rcases h with ⟨c, hc, _⟩; exact absurd hc (List.not_mem_nil c)
  | cons c cs ih =>
    intro p m h
    cases hpi : pyIndex c.2 (respostas c.1) with
    | error e =>
      cases e
      simp [scoreFold, hpi]
    | ok i =>
      rcases h with ⟨c0, hc0, hbad⟩
      rcases List.mem_cons.mp hc0 with hhead | htail
      · subst hhead
        exfalso
        cases hr : respostas c0.1 with
        | none => rw [hr] at hpi; simp [pyIndex] at hpi
        | some o =>
          rw [hr] at hbad
          simp only [Option.any] at hbad
          have hnm : o ∉ c0.2 := by simpa using hbad
          rw [hr] at hpi
          simp [pyIndex, hnm] at hpi
      · simp only [scoreFold, hpi]
        exact ih _ _ ⟨c0, htail, hbad⟩

lemma noOverride (respostas : String → Option String)
    (hnoov : ∀ pr ∈ regras_forcadas, ((respostas pr.1).bind (fun v => pr.2.lookup v)) = none) :
    regras_forcadas.findSome? (fun pr => (respostas pr.1).bind (fun v => pr.2.lookup v)) = none := by
  have h1 := hnoov ("Step", [("V0", "Não Apto"), ("V1", "Revisar")]) (by simp [regras_forcadas])
  have h2 := hnoov ("Ebitda", [("0% a 10%", "Não Apto"), ("11% a 20%", "Revisar")])
    (by simp [regras_forcadas])
  simp only [regras_forcadas, List.findSome?] at h1 h2 ⊢
  rw [h1, h2]

lemma leadsWith_map (f : Char → Char) :
    ∀ (p l : List Char), leadsWith p l = true → leadsWith (p.map f) (l.map f) = true := by
  intro p
  induction p with
  | nil => intro l _; rfl
  | cons a as ih =>
    intro l h
    cases l with
    | nil => simp [leadsWith] at h
    | cons b bs =>
      simp only [leadsWith, Bool.and_eq_true, beq_iff_eq] at h
      obtain ⟨hab, h2⟩ := h
      simp only [List.map_cons, leadsWith, Bool.and_eq_true, beq_iff_eq]
      exact ⟨by rw [hab], ih bs h2⟩

lemma occursIn_map (f : Char → Char) (p : List Char) :
    ∀ (l : List Char), occursIn p l = true → occursIn (p.map f) (l.map f) = true := by
  intro l
  induction l with
  | nil =>
    intro h
    exact leadsWith_map f p [] h
  | cons b bs ih =>
    intro h
    simp only [occursIn, Bool.or_eq_true] at h ⊢
    cases h with
    | inl h => exact Or.inl (leadsWith_map f p (b :: bs) h)
    | inr h => exact Or.inr (ih h)

lemma leadsWith_subset :
    ∀ (p l : List Char), leadsWith p l = true → ∀ c ∈ p, c ∈ l := by
  intro p
  induction p with
  | nil => intro l _ c hc; exact absurd hc (List.not_mem_nil c)
  | cons a as ih =>
    intro l h c hc
    cases l with
    | nil => simp [leadsWith] at h
    | cons b bs =>
      simp only [leadsWith, Bool.and_eq_true, beq_iff_eq] at h
      rcases List.mem_cons.mp hc with rfl | htail
      · rw [h.1]; exact List.mem_cons_self b bs
      · exact List.mem_cons_of_mem b (ih bs h.2 c htail)

lemma occursIn_subset :
    ∀ (p l : List Char), occursIn p l = true → ∀ c ∈ p, c ∈ l := by
  intro p l
  induction l with
  | nil => intro h c hc; exact leadsWith_subset p [] h c hc
  | cons b bs ih =>
    intro h c hc
    simp only [occursIn, Bool.or_eq_true] at h
    cases h with
    | inl h => exact leadsWith_subset p (b :: bs) h c hc
    | inr h => exact List.mem_cons_of_mem b (ih h c hc)

/-- A pattern untouched by lowercasing that occurs in a string also occurs
in the lowercased string (used for the redundant emoji rechecks). -/
lemma strContains_lower (s p : String) (hp : p.data.map pyLowerChar = p.data)
    (h : strContains s p = true) : strContains (pyLower s) p = true := by
  unfold strContains at h ⊢
  show occursIn p.data (String.mk (s.data.map pyLowerChar)).data = true
  rw [show (String.mk (s.data.map pyLowerChar)).data = s.data.map pyLowerChar from rfl, ← hp]
  exact occursIn_map pyLowerChar p.data s.data h

lemma strContains_lower_false (s p : String) (hp : p.data.map pyLowerChar = p.data)
    (h : strContains (pyLower s) p = false) : strContains s p = false := by
  cases hc : strContains s p with
  | false => rfl
  | true => rw [strContains_lower s p hp hc] at h; exact absurd h (by simp)

lemma pyLowerChar_space (c : Char) (h : isPySpace c = true) : pyLowerChar c = c := by
  simp only [isPySpace, Bool.or_eq_true, beq_iff_eq] at h
  rcases h with ((((((h | h) | h) | h) | h) | h) | h) <;> subst h <;> decide

lemma isPySpace_lower (c : Char) (h : isPySpace c = true) : isPySpace (pyLowerChar c) = true := by
  rw [pyLowerChar_space c h]; exact h

/-- A keyword with a non-whitespace character does not occur in a
whitespace-only string. -/
lemma noKeyIn (s k : String) (hs : ∀ c ∈ s.data, isPySpace c = true)
    (hk : ∃ c ∈ k.data, isPySpace c = false) : strContains s k = false := by
  cases hc : strContains s k with
  | false => rfl
  | true =>
    exfalso
    obtain ⟨c, hcm, hcf⟩ := hk
    have := hs c (occursIn_subset k.data s.data hc c hcm)
    rw [this] at hcf
    exact absurd hcf (by simp)

lemma allSpace_lower (s : String) (hs : ∀ c ∈ s.data, isPySpace c = true) :
    ∀ c ∈ (pyLower s).data, isPySpace c = true := by
  intro c hc
  have hc2 : c ∈ s.data.map pyLowerChar := hc
  obtain ⟨a, ha, rfl⟩ := List.mem_map.mp hc2
  exact isPySpace_lower a (hs a ha)

lemma dropWhile_all (p : Char → Bool) :
    ∀ (l : List Char), (∀ a ∈ l, p a = true) → l.dropWhile p = [] := by
  intro l
  induction l with
  | nil => intro _; rfl
  | cons a as ih =>
    intro h
    have ha := h a (List.mem_cons_self a as)
    simp only [List.dropWhile, ha]
    exact ih (fun x hx => h x (List.mem_cons_of_mem a hx))

lemma pyStrip_all_space (s : String) (hs : ∀ c ∈ s.data, isPySpace c = true) :
    pyStrip s = "" := by
  unfold pyStrip
  rw [dropWhile_all isPySpace s.data hs]
  rfl

/-- The source normalizer agrees with the ordered-rule-list reading of the
spec on every input: the three emoji rechecks on the original string in the
else-branches of the code are redundant, since lowercasing leaves the emoji
unchanged. -/
lemma normalize_status_eq_spec :
    ∀ x : Option String, normalize_status x = normalize_status_spec x := by
  intro x
  cases x with
  | none => rfl
  | some s =>
    have e1 : specMatch s ["safe", "🟢"] =
        (strContains (pyLower s) "safe" || strContains (pyLower s) "🟢") := by
      simp [specMatch]
    have e2 : specMatch s ["care", "atenção", "🟡"] =
        (strContains (pyLower s) "care" || strContains (pyLower s) "atenção" ||
          strContains (pyLower s) "🟡") := by
      simp [specMatch, Bool.or_assoc]
    have e3 : specMatch s ["danger", "risco", "churn", "🔴"] =
        (strContains (pyLower s) "danger" || strContains (pyLower s) "risco" ||
          strContains (pyLower s) "churn" || strContains (pyLower s) "🔴") := by
      simp [specMatch, Bool.or_assoc]
    have e4 : specMatch s ["aviso", "⚫"] =
        (strContains (pyLower s) "aviso" || strContains (pyLower s) "⚫") := by
      simp [specMatch]
    show normalize_status (some s) = normalize_status_spec (some s)
    simp only [normalize_status, normalize_status_spec]
    rw [e1, e2, e3, e4]
    cases h1 : (strContains (pyLower s) "safe" || strContains (pyLower s) "🟢") with
    | true => simp [h1]
    | false =>
      simp only [Bool.false_eq_true, if_false]
      cases h2 : (strContains (pyLower s) "care" || strContains (pyLower s) "atenção" ||
          strContains (pyLower s) "🟡") with
      | true => simp [h2]
      | false =>
        simp only [Bool.false_eq_true, if_false]
        cases h3 : (strContains (pyLower s) "danger" || strContains (pyLower s) "risco" ||
            strContains (pyLower s) "churn" || strContains (pyLower s) "🔴") with
        | true => simp [h3]
        | false =>
          simp only [Bool.false_eq_true, if_false]
          cases h4 : (strContains (pyLower s) "aviso" || strContains (pyLower s) "⚫") with
          | true => simp [h4]
          | false =>
            simp only [Bool.false_eq_true, if_false]
            have g1 : strContains s "🟢" = false :=
              strContains_lower_false s "🟢" (by decide) (by
                rcases Bool.or_eq_false_iff.mp h1 with ⟨_, hb⟩
                exact hb)
            have g2 : strContains s "🟡" = false :=
              strContains_lower_false s "🟡" (by decide) (by
                rcases Bool.or_eq_false_iff.mp h2 with ⟨_, hb⟩
                exact hb)
            have g3 : strContains s "🔴" = false :=
              strContains_lower_false s "🔴" (by decide) (by
                rcases Bool.or_eq_false_iff.mp h3 with ⟨_, hb⟩
                exact hb)
            simp [g1, g2, g3]

/-- A whitespace-only string matches no keyword group and strips to the
empty string. -/
lemma normalize_status_all_space : ∀ s : String, (∀ c ∈ s.data, isPySpace c = true) →
    normalize_status (some s) = "" := by
  intro s hs
  have hsl := allSpace_lower s hs
  have k1 : strContains (pyLower s) "safe" = false := noKeyIn _ _ hsl (by decide)
  have k2 : strContains (pyLower s) "🟢" = false := noKeyIn _ _ hsl (by decide)
  have k3 : strContains (pyLower s) "care" = false := noKeyIn _ _ hsl (by decide)
  have k4 : strContains (pyLower s) "atenção" = false := noKeyIn _ _ hsl (by decide)
  have k5 : strContains (pyLower s) "🟡" = false := noKeyIn _ _ hsl (by decide)
  have k6 : strContains (pyLower s) "danger" = false := noKeyIn _ _ hsl (by decide)
  have k7 : strContains (pyLower s) "risco" = false := noKeyIn _ _ hsl (by decide)
  have k8 : strContains (pyLower s) "churn" = false := noKeyIn _ _ hsl (by decide)
  have k9 : strContains (pyLower s) "🔴" = false := noKeyIn _ _ hsl (by decide)
  have k10 : strContains (pyLower s) "aviso" = false := noKeyIn _ _ hsl (by decide)
  have k11 : strContains (pyLower s) "⚫" = false := noKeyIn _ _ hsl (by decide)
  have k12 : strContains s "🟢" = false := noKeyIn _ _ hs (by decide)
  have k13 : strContains s "🟡" = false := noKeyIn _ _ hs (by decide)
  have k14 : strContains s "🔴" = false := noKeyIn _ _ hs (by decide)
  show normalize_status (some s) = ""
  simp only [normalize_status]
  simp [k1, k2, k3, k4, k5, k6, k7, k8, k9, k10, k11, k12, k13, k14,
    pyStrip_all_space s hs]

/-! ## Claim theorems -/

/-- C1: for every answer set in which each criterion's selected option is a
member of that criterion's option list and no override rule matches any
answer, the classification result is the scored outcome whose raw points
are the sum over the criteria of the 0-based option index times the weight,
whose maximum is the sum of (options - 1) times weight (the rawOn and maxOn
sums), whose normalized score is 100 * raw / max, and whose verdict is Apto
iff the score is at least 70, Revisar iff it is in [40, 70), and Não Apto
iff it is below 40 (bands inclusive on the lower bound). -/
theorem C1_weighted_scoring (respostas : String → Option String)
    (hvalid : ∀ c ∈ criterios, ((respostas c.1).any (fun o => c.2.contains o)) = true)
    (hnoov : ∀ pr ∈ regras_forcadas, ((respostas pr.1).bind (fun v => pr.2.lookup v)) = none) :
    classificacao respostas = Except.ok (Resultado.pontuado (rawOn respostas criterios)
        (maxOn criterios) (pontuacaoOf respostas) (verdict (pontuacaoOf respostas)))
      ∧ pontuacaoOf respostas = 100 * (rawOn respostas criterios : ℚ) / (maxOn criterios : ℚ)
      ∧ (verdict (pontuacaoOf respostas) = "Apto" ↔ 70 ≤ pontuacaoOf respostas)
      ∧ (verdict (pontuacaoOf respostas) = "Revisar" ↔
          40 ≤ pontuacaoOf respostas ∧ pontuacaoOf respostas < 70)
      ∧ (verdict (pontuacaoOf respostas) = "Não Apto" ↔ pontuacaoOf respostas < 40) := by
  refine ⟨?_, by unfold pontuacaoOf; ring, (verdict_bands _).1, (verdict_bands _).2.1,
    (verdict_bands _).2.2⟩
  unfold classificacao
  rw [noOverride respostas hnoov, scoreFold_ok respostas criterios 0 0 hvalid]
  simp [pontuacaoOf]

/-- A concrete valid answer set avoiding every override option. -/
def respC1 : String → Option String := fun c =>
  if c == "Faturamento" then some "0 a 69mil"
  else if c == "Ticket Médio" then some "Até R$2.000"
  else if c == "Step" then some "V4"
  else if c == "Empresa Familiar" then some "Sim"
  else if c == "Tempo de Mercado" then some "Novo"
  else if c == "Ebitda" then some "91% a 100%"
  else if c == "Aderência do Cliente ao Modelo Variável" then some "Baixo"
  else if c == "Projeto tem CRM sendo utilizado a mais de 1 ano?" then some "Não"
  else if c == "Projeto tem inteligencia de dados de funil comercial?" then some "Não"
  else if c == "Health Score" then some "Novo Cliente"
  else none

/-- C1 witness: the scoring contract evaluated at a concrete answer set. -/
theorem C1_weighted_scoring_witness :
    classificacao respC1 = Except.ok (Resultado.pontuado (rawOn respC1 criterios)
        (maxOn criterios) (pontuacaoOf respC1) (verdict (pontuacaoOf respC1)))
      ∧ pontuacaoOf respC1 = 100 * (rawOn respC1 criterios : ℚ) / (maxOn criterios : ℚ)
      ∧ (verdict (pontuacaoOf respC1) = "Apto" ↔ 70 ≤ pontuacaoOf respC1)
      ∧ (verdict (pontuacaoOf respC1) = "Revisar" ↔
          40 ≤ pontuacaoOf respC1 ∧ pontuacaoOf respC1 < 70)
      ∧ (verdict (pontuacaoOf respC1) = "Não Apto" ↔ pontuacaoOf respC1 < 40) :=
  C1_weighted_scoring respC1 (by decide) (by decide)

/-- C2: whenever the answer to the criterion Step is V0, the classification
returns the forced verdict Não Apto, regardless of every other answer; the
forcado constructor is the override outcome, which carries no points
because the scoring step never ran. -/
theorem C2_step_v0_forces_not_apt (respostas : String → Option String)
    (h : respostas "Step" = some "V0") :
    classificacao respostas = Except.ok (Resultado.forcado "Não Apto") := by
  unfold classificacao
  have hov : regras_forcadas.findSome?
      (fun pr => (respostas pr.1).bind (fun v => pr.2.lookup v)) = some "Não Apto" := by
    simp only [regras_forcadas, List.findSome?, h]
    rfl
  rw [hov]

/-- An answer set with Step = V0 and everything else unanswered. -/
def respC2 : String → Option String := fun c => if c == "Step" then some "V0" else none

/-- C2 witness: the override contract evaluated at a concrete answer set. -/
theorem C2_step_v0_forces_not_apt_witness :
    classificacao respC2 = Except.ok (Resultado.forcado "Não Apto") :=
  C2_step_v0_forces_not_apt respC2 (by decide)

/-- An answer set with Step = V0 and Faturamento (and everything else)
unanswered. -/
def respC3cex : String → Option String := fun c => if c == "Step" then some "V0" else none

/-- C3 counterexample: an answer set with an unanswered criterion
(Faturamento) for which classification does NOT fail with an invalid-answer
error: the Step = V0 override fires first and returns a verdict, because
the code checks overrides before it ever validates the answers. -/
theorem C3_override_first_cex :
    respC3cex "Faturamento" = none
      ∧ classificacao respC3cex = Except.ok (Resultado.forcado "Não Apto")
      ∧ classificacao respC3cex ≠ Except.error PyErr.valueError := by decide

/-- C3 (amended): when no override rule matches, an unanswered or
out-of-catalog answer for some criterion makes the classification fail with
the ValueError raised by list.index, and no scored result is produced;
the validation happens inside the scoring pass, after the override check. -/
theorem C3_invalid_fails_after_override (respostas : String → Option String)
    (hnoov : ∀ pr ∈ regras_forcadas, ((respostas pr.1).bind (fun v => pr.2.lookup v)) = none)
    (hbad : ∃ c ∈ criterios, ((respostas c.1).any (fun o => c.2.contains o)) = false) :
    classificacao respostas = Except.error PyErr.valueError := by
  unfold classificacao
  rw [noOverride respostas hnoov, scoreFold_err respostas criterios 0 0 hbad]

/-- An answer set with Step = V2 (no override) and everything else
unanswered. -/
def respC3w : String → Option String := fun c => if c == "Step" then some "V2" else none

/-- C3 witness: the amended failure contract at a concrete answer set. -/
theorem C3_invalid_fails_after_override_witness :
    classificacao respC3w = Except.error PyErr.valueError :=
  C3_invalid_fails_after_override respC3w (by decide) (by decide)

/-- The C4 usage table: (A, Janeiro, 100), (A, Janeiro, 50),
(B, Fevereiro, 200), with opaque record identifiers. -/
def dfC4u : DF :=
  { cols := ["Cliente", "Mês", "Valor Variável", "Registro"],
    rows := [[Cell.s "A", Cell.s "Janeiro", Cell.s "100", Cell.s "r1"],
             [Cell.s "A", Cell.s "Janeiro", Cell.s "50", Cell.s "r2"],
             [Cell.s "B", Cell.s "Fevereiro", Cell.s "200", Cell.s "r3"]] }

/-- The C4 fee table: a single fee of 30 for client A. -/
def dfC4f : DF :=
  { cols := ["Cliente", "Valor Fixo"], rows := [[Cell.s "A", Cell.s "30"]] }

/-- C4 counterexample: in the aggregated output for the spec's example, the
fixed-fee cell of the (B, Fevereiro) row (row 1, column 4) is NaN, not 0:
the left merge pads an unmatched client with a missing value and the code
never fills it. -/
theorem C4_missing_fee_nan_cex :
    getCell ((rowsOf (prepare_dataframes dfC4u dfC4f)).getD 1 []) 4 = Cell.nan
      ∧ Cell.nan ≠ Cell.q 0 := by
  constructor
  · with_unfolding_all rfl
  · intro h
    cases h

/-- C4 (amended): on the spec's example the aggregator produces exactly the
two claimed rows, (A, Janeiro): total 150, count 2, fee 30, ticket 75 and
(B, Fevereiro): total 200, count 1, ticket 200, ordered Janeiro before
Fevereiro — except that the fixed fee of the fee-less client B is the
missing value NaN rather than 0. -/
theorem C4_aggregation_example :
    prepare_dataframes dfC4u dfC4f =
      Except.ok
        { cols := ["Cliente", "Mês", "Valor Variável", "Qtd Eventos", "Valor Fixo", "Ticket Médio"],
          rows := [[Cell.s "A", Cell.s "Janeiro", Cell.q 150, Cell.q 2, Cell.q 30, Cell.q 75],
                   [Cell.s "B", Cell.s "Fevereiro", Cell.q 200, Cell.q 1, Cell.nan, Cell.q 200]] } := by
  with_unfolding_all rfl

/-- A one-event usage table for client A in Janeiro. -/
def dfC6u : DF :=
  { cols := ["Cliente", "Mês", "Valor Variável", "Registro"],
    rows := [[Cell.s "A", Cell.s "Janeiro", Cell.s "100", Cell.s "r1"]] }

/-- A fee table with two records for the same client A (30 first, then 40). -/
def dfC6f : DF :=
  { cols := ["Cliente", "Valor Fixo"],
    rows := [[Cell.s "A", Cell.s "30"], [Cell.s "A", Cell.s "40"]] }

/-- C6 counterexample: with duplicate fee records for client A the output
has two rows for the single (A, Janeiro) pair — not one — and the second
fee amount 40 appears in the output, so the first encountered amount is not
the only one used. -/
theorem C6_duplicate_fee_cex :
    (rowsOf (prepare_dataframes dfC6u dfC6f)).length = 2
      ∧ [Cell.s "A", Cell.s "Janeiro", Cell.q 100, Cell.q 1, Cell.q 40, Cell.q 100]
          ∈ rowsOf (prepare_dataframes dfC6u dfC6f) := by
  have h : rowsOf (prepare_dataframes dfC6u dfC6f) =
      [[Cell.s "A", Cell.s "Janeiro", Cell.q 100, Cell.q 1, Cell.q 30, Cell.q 100],
       [Cell.s "A", Cell.s "Janeiro", Cell.q 100, Cell.q 1, Cell.q 40, Cell.q 100]] := by
    with_unfolding_all rfl
  rw [h]
  exact ⟨rfl, List.mem_cons_of_mem _ (List.mem_cons_self _ _)⟩

/-- C6 (amended): with duplicate fee records the left merge emits one output
row per usage group and matching fee record: the (A, Janeiro) group appears
twice, once with fee 30 and once with fee 40 (the relative order of the two
rows is the tie-order of the final month sort, which pandas leaves
unspecified, so only membership is stated). -/
theorem C6_duplicate_fee_rows :
    (prepare_dataframes dfC6u dfC6f).isOk = true
      ∧ (rowsOf (prepare_dataframes dfC6u dfC6f)).length = 2
      ∧ [Cell.s "A", Cell.s "Janeiro", Cell.q 100, Cell.q 1, Cell.q 30, Cell.q 100]
          ∈ rowsOf (prepare_dataframes dfC6u dfC6f)
      ∧ [Cell.s "A", Cell.s "Janeiro", Cell.q 100, Cell.q 1, Cell.q 40, Cell.q 100]
          ∈ rowsOf (prepare_dataframes dfC6u dfC6f) := by
  have h : rowsOf (prepare_dataframes dfC6u dfC6f) =
      [[Cell.s "A", Cell.s "Janeiro", Cell.q 100, Cell.q 1, Cell.q 30, Cell.q 100],
       [Cell.s "A", Cell.s "Janeiro", Cell.q 100, Cell.q 1, Cell.q 40, Cell.q 100]] := by
    with_unfolding_all rfl
  refine ⟨by with_unfolding_all rfl, ?_, ?_, ?_⟩
  · rw [h]
    rfl
  · rw [h]; exact List.mem_cons_self _ _
  · rw [h]; exact List.mem_cons_of_mem _ (List.mem_cons_self _ _)

/-- The frame built by pd.DataFrame from an empty record list: no columns. -/
def dfEmpty : DF := { cols := [], rows := [] }

/-- C9 counterexample: aggregating an empty usage collection does not
succeed (so it cannot yield an empty result): the frame built from an empty
record list has no columns and the group-by raises. -/
theorem C9_empty_usage_cex : (prepare_dataframes dfEmpty dfEmpty).isOk = false := rfl

/-- C9 (amended): for every fee input, aggregating the empty usage
collection raises the KeyError on the missing grouping column Cliente
(pd.DataFrame of an empty record list has no columns), rather than
returning an empty result. -/
theorem C9_empty_usage_keyerror (df_fixo : DF) :
    prepare_dataframes dfEmpty df_fixo = Except.error (PdErr.keyError "Cliente") := rfl

/-- An empty fee table that still carries its two columns. -/
def dfC9fee : DF := { cols := ["Cliente", "Valor Fixo"], rows := [] }

/-- C9 witness: the KeyError at a concrete fee table. -/
theorem C9_empty_usage_keyerror_witness :
    prepare_dataframes dfEmpty dfC9fee = Except.error (PdErr.keyError "Cliente") :=
  C9_empty_usage_keyerror dfC9fee

/-- C5 counterexample: the parser maps the string R$ 2.500 to 2.5, not to
the 2500.0 the claim states: the string has no comma, so the stated
disambiguation rule itself keeps the dot as the decimal point. -/
theorem C5_spec_example_cex : parse_number (some "R$ 2.500") ≠ (2500.0 : ℚ) := by
  have h : parse_number (some "R$ 2.500") = (2.5 : ℚ) := by with_unfolding_all rfl
  rw [h]
  norm_num

/-- C5 (amended): the parser example equations, with R$ 2.500 parsing to 2.5
(per the disambiguation rule, which the code implements faithfully); the
other three example equations hold as claimed. -/
theorem C5_parse_amount_examples :
    parse_number (some "1.234,56") = (1234.56 : ℚ)
      ∧ parse_number (some "1,234.56") = (1234.56 : ℚ)
      ∧ parse_number (some "R$ 2.500") = (2.5 : ℚ)
      ∧ parse_number (some "abc") = 0 := by
  refine ⟨?_, ?_, ?_, ?_⟩ <;> with_unfolding_all rfl

/-- C8: the numeric parser is total (it returns a rational for every input
and raising is impossible by construction): a missing/null input and the
empty string give 0.0, and every string whose cleaned form fails to parse
as a float is coerced to 0.0. -/
theorem C8_parse_never_raises :
    parse_number none = 0 ∧ parse_number (some "") = 0
      ∧ (∀ s : String, pyFloat? (cleanedForm s) = none → parse_number (some s) = 0) := by
  refine ⟨rfl, by with_unfolding_all rfl, ?_⟩
  intro s h
  simp [parse_number, h]

/-- C8 witness: the malformed-input coercion at a concrete string. -/
theorem C8_parse_never_raises_witness : parse_number (some "N/A") = 0 :=
  C8_parse_never_raises.2.2 "N/A" (by with_unfolding_all rfl)

/-- C7: the status normalizer equals the spec's ordered keyword-group
matcher on every input (case-insensitive containment, first group wins,
non-string inputs default to Aviso Prévio, the notice-period label), and in
particular the red-circle churn string maps to Danger and the black-circle
notice string maps to Aviso Prévio. -/
theorem C7_normalize_status_rules :
    (∀ x : Option String, normalize_status x = normalize_status_spec x)
      ∧ normalize_status (some "🔴 Risco de churn") = "Danger"
      ∧ normalize_status (some "⚫  Aviso Prévio") = "Aviso Prévio"
      ∧ normalize_status none = "Aviso Prévio" :=
  ⟨normalize_status_eq_spec, by decide, by decide, rfl⟩

/-- C10: the empty string, and every whitespace-only string, normalizes to
the empty string — a string input (so the non-string default does not
apply) that matches no keyword group and is stripped to nothing by the
verbatim-trimmed fallback — and that value is outside the four canonical
categories, in particular distinct from Aviso Prévio. -/
theorem C10_blank_status :
    (∀ s : String, (∀ c ∈ s.data, isPySpace c = true) → normalize_status (some s) = "")
      ∧ normalize_status (some "") = ""
      ∧ "" ∉ ["Safe", "Care", "Danger", "Aviso Prévio"] :=
  ⟨normalize_status_all_space, by decide, by decide⟩

/-- C10 witness: a concrete whitespace-only string normalizes to empty. -/
theorem C10_blank_status_witness : normalize_status (some "  ") = "" :=
  C10_blank_status.1 "  " (by decide)
